import Mathlib

/-!
Shallow embedding of the pb-audit package (a PocketBase audit-logging
add-on).  Records and audit rows are modelled as association lists of
field values; the PocketBase storage collaborator is an explicit
`AppState`; `logEvent`, `shouldLogEvent`, `ensureAuditCollection`,
`extractIP` and the seven event-capture hooks are translated directly
from the Go source.
-/

namespace PbAudit

/-- A dynamic value stored in a record field or an audit row: the code
only ever stores strings (ids, serialized snapshots, request metadata)
and one timestamp. -/
inductive Value where
  | vStr (s : String)
  | vTime (t : Nat)
deriving DecidableEq, Repr

/-- A mutable field store (core.Record data): association list, later
`Set` calls shadow earlier ones. -/
abbrev Fields := List (String × Value)

/-- record.Set(k, v): overwrite semantics via shadowing. -/
def setField (r : Fields) (k : String) (v : Value) : Fields :=
  (k, v) :: r

/-- record.Get(k): the most recently set value, or none when unset. -/
def getField (r : Fields) (k : String) : Option Value :=
  (r.find? (fun p => p.1 == k)).map (fun p => p.2)

/-- core.Record: an id plus its data fields. -/
structure Record where
  id : String
  fields : Fields
deriving DecidableEq, Repr

/-! Event-type vocabulary (constants.go). -/

def EventTypeCreate : String := "create"

def EventTypeUpdate : String := "update"

def EventTypeDelete : String := "delete"

def EventTypeCreateReq : String := "create_request"

def EventTypeUpdateReq : String := "update_request"

def EventTypeDeleteReq : String := "delete_request"

def EventTypeAuth : String := "auth"

def AllEventTypes : List String :=
  [EventTypeCreate, EventTypeUpdate, EventTypeDelete,
   EventTypeCreateReq, EventTypeUpdateReq, EventTypeDeleteReq,
   EventTypeAuth]

/-! Field names of the audit_logs collection (constants.go,
AuditLogFields). -/

namespace AuditLogFields

def eventType : String := "event_type"

def collectionName : String := "collection_name"

def recordID : String := "record_id"

def userID : String := "user_id"

def authMethod : String := "auth_method"

def requestMethod : String := "request_method"

def requestIP : String := "request_ip"

def requestURL : String := "request_url"

def timestamp : String := "timestamp"

def beforeChanges : String := "before_changes"

def afterChanges : String := "after_changes"

def created : String := "created"

def updated : String := "updated"

end AuditLogFields

/-- Options (options.go). -/
structure Options where
  collectionName : String
  enableStandardEvents : Bool
  enableRequestEvents : Bool
  enableAuthEvents : Bool
  eventFilter : Option (String → String → Bool)
  schemaPath : String
  createAuditCollection : Bool
  failOnSchemaError : Bool
  logToConsole : Bool

/-- DefaultOptions (options.go). -/
def DefaultOptions : Options :=
  { collectionName := "audit_logs"
    enableStandardEvents := true
    enableRequestEvents := true
    enableAuthEvents := true
    eventFilter := none
    schemaPath := ""
    createAuditCollection := true
    failOnSchemaError := false
    logToConsole := true }

/-! Collection schema model (options.go, ensureAuditCollection). -/

/-- The PocketBase field kinds used by the audit schema. -/
inductive FieldKind where
  | select (values : List String)
  | text
  | date
  | autodate (onCreate onUpdate : Bool)
deriving DecidableEq, Repr

structure FieldDef where
  name : String
  required : Bool
  kind : FieldKind
deriving DecidableEq, Repr

structure Collection where
  name : String
  listRule : Option String
  viewRule : Option String
  createRule : Option String
  updateRule : Option String
  deleteRule : Option String
  fields : List FieldDef
  indexes : List (String × Bool × String)
deriving DecidableEq, Repr

/-- The audit collection as built by ensureAuditCollection. -/
def auditCollectionSchema (collectionName : String) : Collection :=
  let adminRule := "@request.auth.type = \x27admin\x27"
  { name := collectionName
    listRule := some adminRule
    viewRule := some adminRule
    createRule := some adminRule
    updateRule := some adminRule
    deleteRule := some adminRule
    fields :=
      [ ⟨AuditLogFields.eventType, true, .select AllEventTypes⟩,
        ⟨AuditLogFields.collectionName, true, .text⟩,
        ⟨AuditLogFields.recordID, true, .text⟩,
        ⟨AuditLogFields.userID, false, .text⟩,
        ⟨AuditLogFields.authMethod, false, .text⟩,
        ⟨AuditLogFields.requestMethod, false, .text⟩,
        ⟨AuditLogFields.requestIP, false, .text⟩,
        ⟨AuditLogFields.requestURL, false, .text⟩,
        ⟨AuditLogFields.timestamp, true, .date⟩,
        ⟨AuditLogFields.beforeChanges, false, .text⟩,
        ⟨AuditLogFields.afterChanges, false, .text⟩,
        ⟨AuditLogFields.created, false, .autodate true false⟩,
        ⟨AuditLogFields.updated, false, .autodate true true⟩ ]
    indexes :=
      [ ("idx_audit_collection_name", false, AuditLogFields.collectionName),
        ("idx_audit_record_id", false, AuditLogFields.recordID),
        ("idx_audit_timestamp", false, AuditLogFields.timestamp),
        ("idx_audit_user_id", false, AuditLogFields.userID),
        ("idx_audit_event_type", false, AuditLogFields.eventType) ] }

/-- The storage collaborator: existing collections, stored records
(tagged with their collection name), and the persisted audit rows. -/
structure AppState where
  collections : List Collection
  records : List (String × Record)
  auditEntries : List Fields
deriving DecidableEq, Repr

/-- app.FindCollectionByNameOrId. -/
def findCollectionByNameOrId (s : AppState) (name : String) : Option Collection :=
  s.collections.find? (fun c => c.name == name)

/-- app.FindRecordById. -/
def findRecordById (s : AppState) (collection id : String) : Option Record :=
  (s.records.find? (fun p => p.1 == collection && p.2.id == id)).map (fun p => p.2)

/-- app.Save on an audit record: append one persisted row. -/
def saveAuditRecord (s : AppState) (entry : Fields) : AppState :=
  { s with auditEntries := s.auditEntries ++ [entry] }

/-- app.Save on a collection definition. -/
def saveCollection (s : AppState) (c : Collection) : AppState :=
  { s with collections := s.collections ++ [c] }

/-- ensureAuditCollection (options.go): no-op when the collection
already exists, else create and save the audit schema. -/
def ensureAuditCollection (s : AppState) (collectionName : String) :
    AppState × Except String Unit :=
  match findCollectionByNameOrId s collectionName with
  | some _ => (s, .ok ())
  | none => (saveCollection s (auditCollectionSchema collectionName), .ok ())

/-! Snapshot serialization: json.Marshal of a record round-tripped
through a generic map (logEvent).  Modelled as a total rendering of the
full field set. -/

def jsonOfValue : Value → String
  | .vStr s => "\"" ++ s ++ "\""
  | .vTime t => toString t

def serializeRecord (r : Record) : String :=
  "\x7b" ++
    String.intercalate ","
      (("\"id\":\"" ++ r.id ++ "\"") ::
        r.fields.map (fun p => "\"" ++ p.1 ++ "\":" ++ jsonOfValue p.2)) ++
    "\x7d"

/-- shouldLogEvent (logger): self-exclusion first, then the optional
user filter, default allow. -/
def shouldLogEvent (opts : Options) (collectionName eventType : String) : Bool :=
  if collectionName == opts.collectionName then
    false
  else
    match opts.eventFilter with
    | some filter => filter collectionName eventType
    | none => true

/-- logEvent, record-id derivation (part of entry assembly): after.id
when the after-record is present, else before.id, else empty. -/
def derivedRecordId (afterRecord beforeRecord : Option Record) : String :=
  match afterRecord with
  | some a => a.id
  | none =>
    match beforeRecord with
    | some b => b.id
    | none => ""

/-- logEvent, basic audit information: event_type, collection_name,
record_id and the timestamp. -/
def baseEntry (collectionName eventType : String)
    (afterRecord beforeRecord : Option Record) (now : Nat) : Fields :=
  setField
    (setField
      (setField
        (setField [] AuditLogFields.eventType (.vStr eventType))
        AuditLogFields.collectionName (.vStr collectionName))
      AuditLogFields.recordID (.vStr (derivedRecordId afterRecord beforeRecord)))
    AuditLogFields.timestamp (.vTime now)

/-- logEvent, request-information merge: every extra key/value field is
Set on the audit record; a nil map is skipped. -/
def mergeRequestInfo (r : Fields) (requestInfo : Option Fields) : Fields :=
  match requestInfo with
  | some info => info.foldl (fun acc p => setField acc p.1 p.2) r
  | none => r

/-- logEvent, user-id fallback: only when no user id was set from the
request info, probe the after-record's user then created_by field; the
before-record is probed only when the after-record is nil. -/
def applyUserFallback (r : Fields) (afterRecord beforeRecord : Option Record) : Fields :=
  if (getField r AuditLogFields.userID).isNone then
    match afterRecord with
    | some a =>
      match getField a.fields "user" with
      | some userId => setField r AuditLogFields.userID userId
      | none =>
        match getField a.fields "created_by" with
        | some userId => setField r AuditLogFields.userID userId
        | none => r
    | none =>
      match beforeRecord with
      | some b =>
        match getField b.fields "user" with
        | some userId => setField r AuditLogFields.userID userId
        | none =>
          match getField b.fields "created_by" with
          | some userId => setField r AuditLogFields.userID userId
          | none => r
      | none => r
  else r

/-- logEvent, before-state snapshot: serialized when the before-record
is present. -/
def applyBeforeSnapshot (r : Fields) (beforeRecord : Option Record) : Fields :=
  match beforeRecord with
  | some b => setField r AuditLogFields.beforeChanges (.vStr (serializeRecord b))
  | none => r

/-- logEvent, after-state snapshot: serialized when the after-record is
present. -/
def applyAfterSnapshot (r : Fields) (afterRecord : Option Record) : Fields :=
  match afterRecord with
  | some a => setField r AuditLogFields.afterChanges (.vStr (serializeRecord a))
  | none => r

/-- logEvent (logger): policy gate, audit-collection lookup, entry
assembly (in the source's statement order: basic info, timestamp,
request-info merge, user-id fallback, before then after snapshot) and
the final save.  `now` stands for time.Now(). -/
def logEvent (opts : Options) (s : AppState)
    (afterRecord beforeRecord : Option Record)
    (collectionName eventType : String)
    (requestInfo : Option Fields) (now : Nat) :
    AppState × Except String Unit :=
  if !(shouldLogEvent opts collectionName eventType) then
    (s, .ok ())
  else
    match findCollectionByNameOrId s opts.collectionName with
    | none =>
        (s, .error ("Failed to find audit_logs collection " ++ opts.collectionName))
    | some _auditCollection =>
        let r4 := baseEntry collectionName eventType afterRecord beforeRecord now
        let r5 := mergeRequestInfo r4 requestInfo
        let r6 := applyUserFallback r5 afterRecord beforeRecord
        let r7 := applyBeforeSnapshot r6 beforeRecord
        let r8 := applyAfterSnapshot r7 afterRecord
        (saveAuditRecord s r8, .ok ())

/-! Event-capture hooks (hooks.go) and the request-context extractor
(extractIP). -/

/-- core.RequestInfo: the pieces read by the hooks and extractIP. -/
structure ReqInfo where
  method : String
  context : String
  headers : List (String × String)
  auth : Option String
deriving DecidableEq, Repr

/-- core.RecordEvent: the record plus its collection name
(e.Record.Collection().Name). -/
structure RecordEvent where
  record : Record
  collName : String
deriving DecidableEq, Repr

/-- core.RecordRequestEvent: record, target collection (e.Collection.Name),
the RealIP() accessor, and the RequestInfo() result (which may error). -/
structure RecordRequestEvent where
  record : Record
  collectionName : String
  realIP : String
  requestInfo : Except String ReqInfo

/-- core.RecordAuthRequestEvent: the auth record (non-nil, since the
hook dereferences e.Record.Collection()), its collection name, the auth
method, RealIP() and RequestInfo(). -/
structure RecordAuthRequestEvent where
  record : Record
  collName : String
  authMethod : String
  realIP : String
  requestInfo : Except String ReqInfo

/-- The requestInfo map a request hook builds: request_ip from
e.RealIP(), then (when RequestInfo() succeeds) request_method,
request_url and — when an authenticated principal exists — user_id. -/
def buildRequestInfo (e : RecordRequestEvent) : Fields :=
  let m := setField [] AuditLogFields.requestIP (.vStr e.realIP)
  match e.requestInfo with
  | .error _ => m
  | .ok ri =>
    let m := setField m AuditLogFields.requestMethod (.vStr ri.method)
    let m := setField m AuditLogFields.requestURL (.vStr ri.context)
    match ri.auth with
    | some uid => setField m AuditLogFields.userID (.vStr uid)
    | none => m

/-- The requestInfo map the auth hook builds: auth_method, user_id from
e.Record.Id, request_ip from e.RealIP(), then method/url when
RequestInfo() succeeds. -/
def buildAuthRequestInfo (e : RecordAuthRequestEvent) : Fields :=
  let m := setField [] AuditLogFields.authMethod (.vStr e.authMethod)
  let m := setField m AuditLogFields.userID (.vStr e.record.id)
  let m := setField m AuditLogFields.requestIP (.vStr e.realIP)
  match e.requestInfo with
  | .error _ => m
  | .ok ri =>
    let m := setField m AuditLogFields.requestMethod (.vStr ri.method)
    setField m AuditLogFields.requestURL (.vStr ri.context)

/-- OnRecordAfterCreateSuccess hook body: skip the audit collection
(returning e.Next(), modelled by `next`), otherwise return logEvent's
result directly. -/
def onRecordAfterCreateSuccess (opts : Options) (s : AppState)
    (e : RecordEvent) (now : Nat) (next : Except String Unit) :
    AppState × Except String Unit :=
  if e.collName == opts.collectionName then (s, next)
  else logEvent opts s (some e.record) none e.collName EventTypeCreate none now

/-- OnRecordAfterUpdateSuccess hook body. -/
def onRecordAfterUpdateSuccess (opts : Options) (s : AppState)
    (e : RecordEvent) (now : Nat) (next : Except String Unit) :
    AppState × Except String Unit :=
  if e.collName == opts.collectionName then (s, next)
  else logEvent opts s (some e.record) none e.collName EventTypeUpdate none now

/-- OnRecordAfterDeleteSuccess hook body. -/
def onRecordAfterDeleteSuccess (opts : Options) (s : AppState)
    (e : RecordEvent) (now : Nat) (next : Except String Unit) :
    AppState × Except String Unit :=
  if e.collName == opts.collectionName then (s, next)
  else logEvent opts s none (some e.record) e.collName EventTypeDelete none now

/-- OnRecordCreateRequest hook body: the logEvent error is logged and
discarded; the hook returns e.Next(). -/
def onRecordCreateRequest (opts : Options) (s : AppState)
    (e : RecordRequestEvent) (now : Nat) (next : Except String Unit) :
    AppState × Except String Unit :=
  if e.collectionName == opts.collectionName then (s, next)
  else
    let info := buildRequestInfo e
    let result := logEvent opts s (some e.record) none e.collectionName
      EventTypeCreateReq (some info) now
    (result.1, next)

/-- OnRecordUpdateRequest hook body: loads the before-state record
first (failure is logged and leaves it nil), then logs and discards. -/
def onRecordUpdateRequest (opts : Options) (s : AppState)
    (e : RecordRequestEvent) (now : Nat) (next : Except String Unit) :
    AppState × Except String Unit :=
  if e.collectionName == opts.collectionName then (s, next)
  else
    let originalRecord := findRecordById s e.collectionName e.record.id
    let info := buildRequestInfo e
    let result := logEvent opts s (some e.record) originalRecord e.collectionName
      EventTypeUpdateReq (some info) now
    (result.1, next)

/-- OnRecordDeleteRequest hook body: logs and discards. -/
def onRecordDeleteRequest (opts : Options) (s : AppState)
    (e : RecordRequestEvent) (now : Nat) (next : Except String Unit) :
    AppState × Except String Unit :=
  if e.collectionName == opts.collectionName then (s, next)
  else
    let info := buildRequestInfo e
    let result := logEvent opts s none (some e.record) e.collectionName
      EventTypeDeleteReq (some info) now
    (result.1, next)

/-- OnRecordAuthRequest hook body: no self-exclusion pre-check; logs
and discards. -/
def onRecordAuthRequest (opts : Options) (s : AppState)
    (e : RecordAuthRequestEvent) (now : Nat) (next : Except String Unit) :
    AppState × Except String Unit :=
  let info := buildAuthRequestInfo e
  let result := logEvent opts s (some e.record) none e.collName
    EventTypeAuth (some info) now
  (result.1, next)

/-! extractIP: the capability-probing IP extractor. -/

/-- The capabilities extractIP probes on its `interface\x7b\x7d`
argument: an optional RealIP() accessor, and an optional RequestInfo()
method which itself may fail. -/
structure ProbeEvent where
  realIP : Option String
  requestInfo : Option (Except String ReqInfo)

/-- strings.ToLower, modelled structurally over the characters (the
library version does not reduce in the kernel). -/
def toLowerString (s : String) : String :=
  String.mk (s.data.map Char.toLower)

/-- strings.TrimSpace, modelled structurally: drop leading and
trailing whitespace characters. -/
def trimString (s : String) : String :=
  String.mk
    (((s.data.dropWhile Char.isWhitespace).reverse.dropWhile
      Char.isWhitespace).reverse)

/-- strings.Split on a one-character separator, helper. -/
def splitOnCharAux (c : Char) : List Char → List Char → List (List Char)
  | acc, [] => [acc.reverse]
  | acc, x :: xs =>
    if x = c then acc.reverse :: splitOnCharAux c [] xs
    else splitOnCharAux c (x :: acc) xs

/-- strings.Split(s, ","), modelled structurally. -/
def splitComma (s : String) : List String :=
  (splitOnCharAux ',' [] s.data).map String.mk

/-- First-match lookup in a header association list. -/
def lookupHeader (headers : List (String × String)) (k : String) : Option String :=
  (headers.find? (fun p => p.1 == k)).map (fun p => p.2)

/-- The case-insensitive header map extractIP builds: keys lowercased;
on a (lowercased) key collision, the later entry wins. -/
def lowerHeaderMap (ri : ReqInfo) : List (String × String) :=
  ri.headers.foldl (fun m p => (toLowerString p.1, p.2) :: m) []

/-- The Go idiom `v, ok := m[k]; ok && v != ""`: present-and-nonempty,
else the empty string. -/
def headerOrEmpty (headers : List (String × String)) (k : String) : String :=
  (lookupHeader headers k).getD ""

/-- extractIP: RealIP() if exposed; else RequestInfo(); else/on error
"unknown"; then cf-connecting-ip, first trimmed entry of
x-forwarded-for, x-real-ip, fly-client-ip, else "unknown". -/
def extractIP (e : ProbeEvent) : String :=
  match e.realIP with
  | some ip => ip
  | none =>
    match e.requestInfo with
    | none => "unknown"
    | some (.error _) => "unknown"
    | some (.ok ri) =>
      let headerMap := lowerHeaderMap ri
      let cfIP := headerOrEmpty headerMap "cf-connecting-ip"
      if cfIP != "" then cfIP
      else
        let forwardedFor := headerOrEmpty headerMap "x-forwarded-for"
        if forwardedFor != "" then
          trimString ((splitComma forwardedFor).headD "")
        else
          let realIP := headerOrEmpty headerMap "x-real-ip"
          if realIP != "" then realIP
          else
            let flyIP := headerOrEmpty headerMap "fly-client-ip"
            if flyIP != "" then flyIP
            else "unknown"

/-! Derived characterizations used in the theorem statements. -/

/-- The user id supplied through the extra request-info fields (the
last value set for user_id, or none). -/
def suppliedUserId (requestInfo : Option Fields) : Option Value :=
  match requestInfo with
  | some info => getField info.reverse AuditLogFields.userID
  | none => none

/-- The user-id resolution logEvent actually performs: the supplied
request-context id wins; otherwise, when the after-record is present
only its user/created_by fields are consulted; the before-record is
consulted only when the after-record is nil. -/
def resolveUserId (supplied : Option Value) (afterRecord beforeRecord : Option Record) :
    Option Value :=
  match supplied with
  | some u => some u
  | none =>
    match afterRecord with
    | some a =>
      match getField a.fields "user" with
      | some u => some u
      | none => getField a.fields "created_by"
    | none =>
      match beforeRecord with
      | some b =>
        match getField b.fields "user" with
        | some u => some u
        | none => getField b.fields "created_by"
      | none => none

/-- The entry keys logEvent itself assigns before merging the extra
request-info fields; the hooks never pass these keys in requestInfo. -/
def reservedEntryKeys : List String :=
  [AuditLogFields.eventType, AuditLogFields.collectionName,
   AuditLogFields.recordID, AuditLogFields.beforeChanges,
   AuditLogFields.afterChanges]

/-! Concrete fixtures used in witnesses and counterexamples. -/

def emptyState : AppState :=
  { collections := [], records := [], auditEntries := [] }

def sampleState : AppState :=
  { collections := [auditCollectionSchema "audit_logs"], records := [], auditEntries := [] }

def sampleRecord : Record :=
  { id := "r1", fields := [("user", .vStr "alice")] }

def cexAfterRecord : Record :=
  { id := "r1", fields := [] }

def cexBeforeRecord : Record :=
  { id := "r0", fields := [("user", .vStr "alice")] }

def wRecEvent : RecordEvent :=
  { record := sampleRecord, collName := "widgets" }

def wReqEvent : RecordRequestEvent :=
  { record := sampleRecord, collectionName := "widgets", realIP := "1.2.3.4",
    requestInfo := .ok
      { method := "POST", context := "/api/collections/widgets/records",
        headers := [], auth := none } }

def wAuthEvent : RecordAuthRequestEvent :=
  { record := sampleRecord, collName := "users", authMethod := "password",
    realIP := "1.2.3.4",
    requestInfo := .ok
      { method := "POST", context := "/api/collections/users/auth-with-password",
        headers := [], auth := none } }

def wFilterTrue : Options :=
  { DefaultOptions with eventFilter := some (fun _ _ => true) }

def wFilterFalse : Options :=
  { DefaultOptions with eventFilter := some (fun _ _ => false) }

/-- The entry persisted by a sample create call, used as a witness. -/
def c1wEntry : Fields :=
  ((logEvent DefaultOptions sampleState (some sampleRecord) none "widgets"
    "create" none 0).1.auditEntries).getLastD []

/-! Helper lemmas about the field store. -/

theorem getField_setField_self (r : Fields) (k : String) (v : Value) :
    getField (setField r k v) k = some v := by
  simp [getField, setField]

theorem getField_setField_ne (r : Fields) (k k' : String) (v : Value) (h : k ≠ k') :
    getField (setField r k v) k' = getField r k' := by
  simp [getField, setField, List.find?_cons_of_neg, h]

theorem foldl_setField_eq (info : Fields) (r : Fields) :
    info.foldl (fun acc p => setField acc p.1 p.2) r = info.reverse ++ r := by
  induction info generalizing r with
  | nil => simp
  | cons p tl ih =>
      simp [List.foldl_cons, setField, ih, List.append_assoc]

theorem getField_append (l₁ l₂ : Fields) (k : String) :
    getField (l₁ ++ l₂) k = (getField l₁ k).or (getField l₂ k) := by
  simp [getField, List.find?_append]
  cases l₁.find? (fun p => p.1 == k) <;> simp

theorem getField_eq_none_of_keys (r : Fields) (k : String)
    (h : ∀ p ∈ r, p.1 ≠ k) : getField r k = none := by
  have : r.find? (fun p => p.1 == k) = none := by
    rw [List.find?_eq_none]
    intro p hp
    simpa using h p hp
  simp [getField, this]

theorem getField_cons_self (r : Fields) (k : String) (v : Value) :
    getField ((k, v) :: r) k = some v := by
  simp [getField]

theorem getField_cons_ne (r : Fields) (k k' : String) (v : Value) (h : ¬ k = k') :
    getField ((k, v) :: r) k' = getField r k' := by
  simp [getField, List.find?_cons_of_neg, h]

theorem suppliedUserId_eq (requestInfo : Option Fields) :
    suppliedUserId requestInfo =
      getField (requestInfo.getD []).reverse AuditLogFields.userID := by
  rcases requestInfo with _ | info <;> rfl

theorem getField_baseEntry_eventType (cn et : String) (a b : Option Record) (now : Nat) :
    getField (baseEntry cn et a b now) AuditLogFields.eventType = some (.vStr et) := by
  simp [baseEntry, getField_setField_self, getField_setField_ne, AuditLogFields.eventType,
    AuditLogFields.collectionName, AuditLogFields.recordID, AuditLogFields.timestamp]

theorem getField_baseEntry_collectionName (cn et : String) (a b : Option Record) (now : Nat) :
    getField (baseEntry cn et a b now) AuditLogFields.collectionName = some (.vStr cn) := by
  simp [baseEntry, getField_setField_self, getField_setField_ne, AuditLogFields.eventType,
    AuditLogFields.collectionName, AuditLogFields.recordID, AuditLogFields.timestamp]

theorem getField_baseEntry_recordID (cn et : String) (a b : Option Record) (now : Nat) :
    getField (baseEntry cn et a b now) AuditLogFields.recordID =
      some (.vStr (derivedRecordId a b)) := by
  simp [baseEntry, getField_setField_self, getField_setField_ne, AuditLogFields.recordID,
    AuditLogFields.timestamp]

theorem getField_baseEntry_of_ne (cn et : String) (a b : Option Record) (now : Nat)
    (k : String)
    (h1 : ¬ AuditLogFields.timestamp = k) (h2 : ¬ AuditLogFields.recordID = k)
    (h3 : ¬ AuditLogFields.collectionName = k) (h4 : ¬ AuditLogFields.eventType = k) :
    getField (baseEntry cn et a b now) k = none := by
  unfold baseEntry
  rw [getField_setField_ne _ _ _ _ h1, getField_setField_ne _ _ _ _ h2,
      getField_setField_ne _ _ _ _ h3, getField_setField_ne _ _ _ _ h4]
  rfl

theorem getField_mergeRequestInfo (r : Fields) (requestInfo : Option Fields) (k : String) :
    getField (mergeRequestInfo r requestInfo) k =
      (getField (requestInfo.getD []).reverse k).or (getField r k) := by
  rcases requestInfo with _ | info
  · simp [mergeRequestInfo, getField]
  · show getField (info.foldl (fun acc p => setField acc p.1 p.2) r) k = _
    rw [foldl_setField_eq, getField_append]
    rfl

theorem getField_applyUserFallback_userID (r : Fields) (a b : Option Record) :
    getField (applyUserFallback r a b) AuditLogFields.userID =
      resolveUserId (getField r AuditLogFields.userID) a b := by
  rcases h : getField r AuditLogFields.userID with _ | u
  · rcases a with _ | a
    · rcases b with _ | b
      · simp [applyUserFallback, resolveUserId, h]
      · rcases hu : getField b.fields "user" with _ | u
        · rcases hcb : getField b.fields "created_by" with _ | u
          · simp [applyUserFallback, resolveUserId, h, hu, hcb]
          · simp [applyUserFallback, resolveUserId, h, hu, hcb, getField_setField_self]
        · simp [applyUserFallback, resolveUserId, h, hu, getField_setField_self]
    · rcases hu : getField a.fields "user" with _ | u
      · rcases hcb : getField a.fields "created_by" with _ | u
        · simp [applyUserFallback, resolveUserId, h, hu, hcb]
        · simp [applyUserFallback, resolveUserId, h, hu, hcb, getField_setField_self]
      · simp [applyUserFallback, resolveUserId, h, hu, getField_setField_self]
  · simp [applyUserFallback, resolveUserId, h]

theorem getField_applyUserFallback_ne (r : Fields) (a b : Option Record) (k : String)
    (h : ¬ AuditLogFields.userID = k) :
    getField (applyUserFallback r a b) k = getField r k := by
  unfold applyUserFallback
  repeat' split
  all_goals simp [getField_setField_ne, h]

theorem getField_applyBeforeSnapshot_self (r : Fields) (b : Option Record)
    (hnone : getField r AuditLogFields.beforeChanges = none) :
    getField (applyBeforeSnapshot r b) AuditLogFields.beforeChanges =
      b.map (fun x => .vStr (serializeRecord x)) := by
  rcases b <;> simp [applyBeforeSnapshot, getField_setField_self, hnone]

theorem getField_applyBeforeSnapshot_ne (r : Fields) (b : Option Record) (k : String)
    (h : ¬ AuditLogFields.beforeChanges = k) :
    getField (applyBeforeSnapshot r b) k = getField r k := by
  rcases b <;> simp [applyBeforeSnapshot, getField_setField_ne, h]

theorem getField_applyAfterSnapshot_self (r : Fields) (a : Option Record)
    (hnone : getField r AuditLogFields.afterChanges = none) :
    getField (applyAfterSnapshot r a) AuditLogFields.afterChanges =
      a.map (fun x => .vStr (serializeRecord x)) := by
  rcases a <;> simp [applyAfterSnapshot, getField_setField_self, hnone]

theorem getField_applyAfterSnapshot_ne (r : Fields) (a : Option Record) (k : String)
    (h : ¬ AuditLogFields.afterChanges = k) :
    getField (applyAfterSnapshot r a) k = getField r k := by
  rcases a <;> simp [applyAfterSnapshot, getField_setField_ne, h]

/-- Characterization of a successful logEvent call: when the policy
gate passes, the audit collection exists, and the extra request-info
fields use none of the keys logEvent assigns itself, exactly one entry
is appended and its key fields are as described. -/
theorem logEvent_saves (opts : Options) (s : AppState)
    (afterRecord beforeRecord : Option Record)
    (collectionName eventType : String)
    (requestInfo : Option Fields) (now : Nat)
    (hgate : shouldLogEvent opts collectionName eventType = true)
    (hfind : (findCollectionByNameOrId s opts.collectionName).isSome)
    (hkeys : ∀ p ∈ requestInfo.getD [], ¬ p.1 ∈ reservedEntryKeys) :
    ∃ entry,
      logEvent opts s afterRecord beforeRecord collectionName eventType requestInfo now =
        (saveAuditRecord s entry, .ok ()) ∧
      getField entry AuditLogFields.eventType = some (.vStr eventType) ∧
      getField entry AuditLogFields.collectionName = some (.vStr collectionName) ∧
      getField entry AuditLogFields.recordID =
        some (.vStr (derivedRecordId afterRecord beforeRecord)) ∧
      getField entry AuditLogFields.userID =
        resolveUserId (suppliedUserId requestInfo) afterRecord beforeRecord ∧
      getField entry AuditLogFields.beforeChanges =
        beforeRecord.map (fun b => .vStr (serializeRecord b)) ∧
      getField entry AuditLogFields.afterChanges =
        afterRecord.map (fun a => .vStr (serializeRecord a)) := by
  obtain ⟨c, hc⟩ := Option.isSome_iff_exists.mp hfind
  have hrev : ∀ k ∈ reservedEntryKeys, getField (requestInfo.getD []).reverse k = none := by
    intro k hk
    apply getField_eq_none_of_keys
    intro p hp hpk
    exact hkeys p (by simpa using hp) (hpk ▸ hk)
  have hrun : logEvent opts s afterRecord beforeRecord collectionName eventType requestInfo now =
      (saveAuditRecord s (applyAfterSnapshot (applyBeforeSnapshot (applyUserFallback
        (mergeRequestInfo (baseEntry collectionName eventType afterRecord beforeRecord now)
          requestInfo) afterRecord beforeRecord) beforeRecord) afterRecord), .ok ()) := by
    unfold logEvent
    rw [hgate, hc]
    rfl
  refine ⟨_, hrun, ?_, ?_, ?_, ?_, ?_, ?_⟩
  · rw [getField_applyAfterSnapshot_ne _ _ _ (by decide),
        getField_applyBeforeSnapshot_ne _ _ _ (by decide),
        getField_applyUserFallback_ne _ _ _ _ (by decide),
        getField_mergeRequestInfo,
        hrev AuditLogFields.eventType (by decide),
        Option.none_or, getField_baseEntry_eventType]
  · rw [getField_applyAfterSnapshot_ne _ _ _ (by decide),
        getField_applyBeforeSnapshot_ne _ _ _ (by decide),
        getField_applyUserFallback_ne _ _ _ _ (by decide),
        getField_mergeRequestInfo,
        hrev AuditLogFields.collectionName (by decide),
        Option.none_or, getField_baseEntry_collectionName]
  · rw [getField_applyAfterSnapshot_ne _ _ _ (by decide),
        getField_applyBeforeSnapshot_ne _ _ _ (by decide),
        getField_applyUserFallback_ne _ _ _ _ (by decide),
        getField_mergeRequestInfo,
        hrev AuditLogFields.recordID (by decide),
        Option.none_or, getField_baseEntry_recordID]
  · rw [getField_applyAfterSnapshot_ne _ _ _ (by decide),
        getField_applyBeforeSnapshot_ne _ _ _ (by decide),
        getField_applyUserFallback_userID,
        getField_mergeRequestInfo,
        getField_baseEntry_of_ne _ _ _ _ _ _ (by decide) (by decide) (by decide) (by decide),
        Option.or_none, suppliedUserId_eq]
  · have hbc : getField (applyUserFallback
        (mergeRequestInfo (baseEntry collectionName eventType afterRecord beforeRecord now)
          requestInfo) afterRecord beforeRecord) AuditLogFields.beforeChanges = none := by
      rw [getField_applyUserFallback_ne _ _ _ _ (by decide),
          getField_mergeRequestInfo,
          hrev AuditLogFields.beforeChanges (by decide),
          Option.none_or,
          getField_baseEntry_of_ne _ _ _ _ _ _ (by decide) (by decide) (by decide) (by decide)]
    rw [getField_applyAfterSnapshot_ne _ _ _ (by decide),
        getField_applyBeforeSnapshot_self _ _ hbc]
  · have hac : getField (applyBeforeSnapshot (applyUserFallback
        (mergeRequestInfo (baseEntry collectionName eventType afterRecord beforeRecord now)
          requestInfo) afterRecord beforeRecord) beforeRecord) AuditLogFields.afterChanges
        = none := by
      rw [getField_applyBeforeSnapshot_ne _ _ _ (by decide),
          getField_applyUserFallback_ne _ _ _ _ (by decide),
          getField_mergeRequestInfo,
          hrev AuditLogFields.afterChanges (by decide),
          Option.none_or,
          getField_baseEntry_of_ne _ _ _ _ _ _ (by decide) (by decide) (by decide) (by decide)]
    rw [getField_applyAfterSnapshot_self _ _ hac]

/-- When the policy gate rejects, logEvent is a silent no-op. -/
theorem logEvent_skip (opts : Options) (s : AppState)
    (afterRecord beforeRecord : Option Record) (collectionName eventType : String)
    (requestInfo : Option Fields) (now : Nat)
    (h : shouldLogEvent opts collectionName eventType = false) :
    logEvent opts s afterRecord beforeRecord collectionName eventType requestInfo now =
      (s, .ok ()) := by
  unfold logEvent
  rw [h]
  rfl

/-- When the gate passes but the audit collection is missing, logEvent
returns the lookup error and leaves the state untouched. -/
theorem logEvent_missing_collection (opts : Options) (s : AppState)
    (afterRecord beforeRecord : Option Record) (collectionName eventType : String)
    (requestInfo : Option Fields) (now : Nat)
    (hgate : shouldLogEvent opts collectionName eventType = true)
    (hmiss : findCollectionByNameOrId s opts.collectionName = none) :
    logEvent opts s afterRecord beforeRecord collectionName eventType requestInfo now =
      (s, .error ("Failed to find audit_logs collection " ++ opts.collectionName)) := by
  unfold logEvent
  rw [hgate, hmiss]
  rfl

/-- When the gate passes and the audit collection exists, logEvent
appends exactly one entry and succeeds. -/
theorem logEvent_appends (opts : Options) (s : AppState)
    (afterRecord beforeRecord : Option Record) (collectionName eventType : String)
    (requestInfo : Option Fields) (now : Nat)
    (hgate : shouldLogEvent opts collectionName eventType = true)
    (hfind : (findCollectionByNameOrId s opts.collectionName).isSome = true) :
    ∃ entry,
      logEvent opts s afterRecord beforeRecord collectionName eventType requestInfo now =
        (saveAuditRecord s entry, .ok ()) := by
  obtain ⟨c, hc⟩ := Option.isSome_iff_exists.mp hfind
  refine ⟨applyAfterSnapshot (applyBeforeSnapshot (applyUserFallback
    (mergeRequestInfo (baseEntry collectionName eventType afterRecord beforeRecord now)
      requestInfo) afterRecord beforeRecord) beforeRecord) afterRecord, ?_⟩
  unfold logEvent
  rw [hgate, hc]
  rfl

/-- A passing gate implies the observed collection is not the audit
collection. -/
theorem shouldLogEvent_ne (opts : Options) (collectionName eventType : String)
    (h : shouldLogEvent opts collectionName eventType = true) :
    collectionName ≠ opts.collectionName := by
  intro hc
  simp [shouldLogEvent, hc] at h

/-- Entry-list view of logEvent: the audit entries either stay as they
are or grow by entries whose snapshot fields reflect the given
before/after records. -/
theorem logEvent_entries (opts : Options) (s : AppState)
    (afterRecord beforeRecord : Option Record) (collectionName eventType : String)
    (requestInfo : Option Fields) (now : Nat)
    (hkeys : ∀ p ∈ requestInfo.getD [], ¬ p.1 ∈ reservedEntryKeys) :
    ∃ l,
      (logEvent opts s afterRecord beforeRecord collectionName eventType
        requestInfo now).1.auditEntries = s.auditEntries ++ l ∧
      ∀ entry ∈ l,
        getField entry AuditLogFields.beforeChanges =
          beforeRecord.map (fun x => .vStr (serializeRecord x)) ∧
        getField entry AuditLogFields.afterChanges =
          afterRecord.map (fun x => .vStr (serializeRecord x)) ∧
        getField entry AuditLogFields.collectionName = some (.vStr collectionName) ∧
        getField entry AuditLogFields.eventType = some (.vStr eventType) ∧
        getField entry AuditLogFields.recordID =
          some (.vStr (derivedRecordId afterRecord beforeRecord)) ∧
        getField entry AuditLogFields.userID =
          resolveUserId (suppliedUserId requestInfo) afterRecord beforeRecord := by
  rcases hgate : shouldLogEvent opts collectionName eventType with _ | _
  · refine ⟨[], ?_, by simp⟩
    rw [logEvent_skip _ _ _ _ _ _ _ _ hgate]
    simp
  · rcases hfind : findCollectionByNameOrId s opts.collectionName with _ | c
    · refine ⟨[], ?_, by simp⟩
      rw [logEvent_missing_collection _ _ _ _ _ _ _ _ hgate hfind]
      simp
    · obtain ⟨entry, hrun, het, hcn, hrid, huid, hbc, hac⟩ :=
        logEvent_saves opts s afterRecord beforeRecord collectionName eventType
          requestInfo now hgate (by rw [hfind]; rfl) hkeys
      refine ⟨[entry], by rw [hrun]; rfl, ?_⟩
      intro e he
      rw [List.mem_singleton] at he
      subst he
      exact ⟨hbc, hac, hcn, het, hrid, huid⟩

theorem requestIP_not_reserved : ¬ AuditLogFields.requestIP ∈ reservedEntryKeys := by
  decide

theorem requestMethod_not_reserved : ¬ AuditLogFields.requestMethod ∈ reservedEntryKeys := by
  decide

theorem requestURL_not_reserved : ¬ AuditLogFields.requestURL ∈ reservedEntryKeys := by
  decide

theorem userID_not_reserved : ¬ AuditLogFields.userID ∈ reservedEntryKeys := by
  decide

theorem authMethod_not_reserved : ¬ AuditLogFields.authMethod ∈ reservedEntryKeys := by
  decide

/-- The request-info map built by the request hooks never uses the
entry keys logEvent assigns itself. -/
theorem buildRequestInfo_keys (e : RecordRequestEvent) :
    ∀ p ∈ buildRequestInfo e, ¬ p.1 ∈ reservedEntryKeys := by
  intro p hp
  unfold buildRequestInfo at hp
  rcases hri : e.requestInfo with msg | ri <;> rw [hri] at hp
  · simp [setField] at hp
    subst hp
    exact requestIP_not_reserved
  · simp only [setField] at hp
    rcases hauth : ri.auth with _ | uid <;> rw [hauth] at hp <;> simp at hp
    · rcases hp with rfl | rfl | rfl <;>
        first
        | exact requestIP_not_reserved
        | exact requestMethod_not_reserved
        | exact requestURL_not_reserved
    · rcases hp with rfl | rfl | rfl | rfl <;>
        first
        | exact requestIP_not_reserved
        | exact requestMethod_not_reserved
        | exact requestURL_not_reserved
        | exact userID_not_reserved

/-- The request-info map built by the auth hook never uses the entry
keys logEvent assigns itself. -/
theorem buildAuthRequestInfo_keys (e : RecordAuthRequestEvent) :
    ∀ p ∈ buildAuthRequestInfo e, ¬ p.1 ∈ reservedEntryKeys := by
  intro p hp
  unfold buildAuthRequestInfo at hp
  rcases hri : e.requestInfo with msg | ri <;> rw [hri] at hp <;> simp [setField] at hp
  · rcases hp with rfl | rfl | rfl <;>
      first
      | exact requestIP_not_reserved
      | exact userID_not_reserved
      | exact authMethod_not_reserved
  · rcases hp with rfl | rfl | rfl | rfl | rfl <;>
      first
      | exact requestIP_not_reserved
      | exact requestMethod_not_reserved
      | exact requestURL_not_reserved
      | exact userID_not_reserved
      | exact authMethod_not_reserved

/-! Claim theorems. -/

/-- C1: Self-exclusion — for every logEvent call where the observed
collection equals the configured audit-collection name, no entry is
produced and the call returns success, regardless of event type and
filter; and any entry present after a call either pre-existed or
carries a collection_name different from the audit-collection name. -/
theorem c1_self_exclusion (opts : Options) (s : AppState)
    (afterRecord beforeRecord : Option Record) (coll eventType : String)
    (requestInfo : Option Fields) (now : Nat) (entry : Fields)
    (hkeys : ∀ p ∈ requestInfo.getD [], ¬ p.1 ∈ reservedEntryKeys)
    (hmem : entry ∈ (logEvent opts s afterRecord beforeRecord coll eventType
      requestInfo now).1.auditEntries) :
    logEvent opts s afterRecord beforeRecord opts.collectionName eventType
      requestInfo now = (s, .ok ()) ∧
    (entry ∈ s.auditEntries ∨
      (getField entry AuditLogFields.collectionName = some (.vStr coll) ∧
        coll ≠ opts.collectionName)) := by
  constructor
  · exact logEvent_skip _ _ _ _ _ _ _ _ (by simp [shouldLogEvent])
  · rcases hgate : shouldLogEvent opts coll eventType with _ | _
    · rw [logEvent_skip _ _ _ _ _ _ _ _ hgate] at hmem
      exact Or.inl hmem
    · rcases hfind : findCollectionByNameOrId s opts.collectionName with _ | c
      · rw [logEvent_missing_collection _ _ _ _ _ _ _ _ hgate hfind] at hmem
        exact Or.inl hmem
      · obtain ⟨e1, hrun, _, hcn, _, _, _, _⟩ :=
          logEvent_saves opts s afterRecord beforeRecord coll eventType requestInfo
            now hgate (by rw [hfind]; rfl) hkeys
        rw [hrun] at hmem
        simp only [saveAuditRecord, List.mem_append, List.mem_singleton] at hmem
        rcases hmem with hmem | rfl
        · exact Or.inl hmem
        · exact Or.inr ⟨hcn, shouldLogEvent_ne _ _ _ hgate⟩

/-- C1 witness: concrete instantiation on the default options, a state
holding the audit collection, and a create call on "widgets". -/
theorem c1_self_exclusion_witness :
    logEvent DefaultOptions sampleState (some sampleRecord) none "audit_logs"
      "create" none 0 = (sampleState, .ok ()) ∧
    (c1wEntry ∈ sampleState.auditEntries ∨
      (getField c1wEntry AuditLogFields.collectionName = some (.vStr "widgets") ∧
        "widgets" ≠ "audit_logs")) :=
  c1_self_exclusion DefaultOptions sampleState (some sampleRecord) none "widgets"
    "create" none 0 c1wEntry (by simp) (by decide)

/-- C8: a missing audit collection is a hard error — when the gate
passes but the lookup fails, logEvent returns the error and the state
(collections and entries alike) is returned unchanged, with no attempt
to create the collection. -/
theorem c8_missing_collection_error (opts : Options) (s : AppState)
    (afterRecord beforeRecord : Option Record) (coll eventType : String)
    (requestInfo : Option Fields) (now : Nat)
    (hgate : shouldLogEvent opts coll eventType = true)
    (hmiss : findCollectionByNameOrId s opts.collectionName = none) :
    logEvent opts s afterRecord beforeRecord coll eventType requestInfo now =
      (s, .error ("Failed to find audit_logs collection " ++ opts.collectionName)) :=
  logEvent_missing_collection opts s afterRecord beforeRecord coll eventType
    requestInfo now hgate hmiss

/-- C8 witness: concrete call against a state with no collections. -/
theorem c8_missing_collection_error_witness :
    logEvent DefaultOptions emptyState none none "widgets" "create" none 0 =
      (emptyState, .error ("Failed to find audit_logs collection " ++ "audit_logs")) :=
  c8_missing_collection_error DefaultOptions emptyState none none "widgets"
    "create" none 0 rfl rfl

/-- C9: record-id derivation — the persisted entry's record_id is the
after-record's id when present, otherwise the before-record's id. -/
theorem c9_record_id (opts : Options) (s : AppState)
    (afterRecord beforeRecord : Option Record) (coll eventType : String)
    (requestInfo : Option Fields) (now : Nat)
    (hgate : shouldLogEvent opts coll eventType = true)
    (hfind : (findCollectionByNameOrId s opts.collectionName).isSome = true)
    (hkeys : ∀ p ∈ requestInfo.getD [], ¬ p.1 ∈ reservedEntryKeys) :
    ∃ entry,
      logEvent opts s afterRecord beforeRecord coll eventType requestInfo now =
        (saveAuditRecord s entry, .ok ()) ∧
      (∀ a, afterRecord = some a →
        getField entry AuditLogFields.recordID = some (.vStr a.id)) ∧
      (afterRecord = none → ∀ b, beforeRecord = some b →
        getField entry AuditLogFields.recordID = some (.vStr b.id)) := by
  obtain ⟨entry, hrun, _, _, hrid, _, _, _⟩ :=
    logEvent_saves opts s afterRecord beforeRecord coll eventType requestInfo now
      hgate hfind hkeys
  refine ⟨entry, hrun, ?_, ?_⟩
  · rintro a rfl
    simpa [derivedRecordId] using hrid
  · rintro rfl b rfl
    simpa [derivedRecordId] using hrid

/-- C9 witness: a create call whose entry carries the after-record id. -/
theorem c9_record_id_witness :
    ∃ entry,
      logEvent DefaultOptions sampleState (some sampleRecord) none "widgets"
        "create" none 0 = (saveAuditRecord sampleState entry, .ok ()) ∧
      (∀ a, some sampleRecord = some a →
        getField entry AuditLogFields.recordID = some (.vStr a.id)) ∧
      (some sampleRecord = none → ∀ b, (none : Option Record) = some b →
        getField entry AuditLogFields.recordID = some (.vStr b.id)) :=
  c9_record_id DefaultOptions sampleState (some sampleRecord) none "widgets"
    "create" none 0 rfl rfl (by simp)

/-- C10: a call with both records null that passes the gate is not
rejected — it saves an entry with empty record_id and neither snapshot
field populated. -/
theorem c10_both_null (opts : Options) (s : AppState) (coll eventType : String)
    (requestInfo : Option Fields) (now : Nat)
    (hgate : shouldLogEvent opts coll eventType = true)
    (hfind : (findCollectionByNameOrId s opts.collectionName).isSome = true)
    (hkeys : ∀ p ∈ requestInfo.getD [], ¬ p.1 ∈ reservedEntryKeys) :
    ∃ entry,
      logEvent opts s none none coll eventType requestInfo now =
        (saveAuditRecord s entry, .ok ()) ∧
      getField entry AuditLogFields.recordID = some (.vStr "") ∧
      getField entry AuditLogFields.beforeChanges = none ∧
      getField entry AuditLogFields.afterChanges = none := by
  obtain ⟨entry, hrun, _, _, hrid, _, hbc, hac⟩ :=
    logEvent_saves opts s none none coll eventType requestInfo now hgate hfind hkeys
  exact ⟨entry, hrun, by simpa [derivedRecordId] using hrid,
    by simpa using hbc, by simpa using hac⟩

/-- C10 witness: concrete both-null call. -/
theorem c10_both_null_witness :
    ∃ entry,
      logEvent DefaultOptions sampleState none none "widgets" "create" none 0 =
        (saveAuditRecord sampleState entry, .ok ()) ∧
      getField entry AuditLogFields.recordID = some (.vStr "") ∧
      getField entry AuditLogFields.beforeChanges = none ∧
      getField entry AuditLogFields.afterChanges = none :=
  c10_both_null DefaultOptions sampleState "widgets" "create" none 0 rfl rfl (by simp)

/-- C4 counterexample: with a configured always-true filter but the
audit collection absent, a logEvent call on a non-audit collection
produces no entry and returns an error — not exactly one entry. -/
theorem c4_counterexample :
    (logEvent wFilterTrue emptyState (some sampleRecord) none "widgets"
      "create" none 0).1.auditEntries = [] ∧
    (logEvent wFilterTrue emptyState (some sampleRecord) none "widgets"
      "create" none 0).2 =
      .error ("Failed to find audit_logs collection " ++ "audit_logs") :=
  ⟨rfl, rfl⟩

/-- C4 amended: on a non-audit collection with a configured filter, a
false verdict is a silent no-op (success, state unchanged); a true
verdict produces exactly one entry provided the audit-collection
lookup succeeds. -/
theorem c4_filter_authority (opts : Options) (filter : String → String → Bool)
    (s : AppState) (afterRecord beforeRecord : Option Record)
    (coll eventType : String) (requestInfo : Option Fields) (now : Nat)
    (hopts : opts.eventFilter = some filter) (hne : coll ≠ opts.collectionName) :
    (filter coll eventType = false →
      logEvent opts s afterRecord beforeRecord coll eventType requestInfo now =
        (s, .ok ())) ∧
    (filter coll eventType = true →
      (findCollectionByNameOrId s opts.collectionName).isSome = true →
      ∃ entry,
        logEvent opts s afterRecord beforeRecord coll eventType requestInfo now =
          (saveAuditRecord s entry, .ok ())) := by
  have hbeq : (coll == opts.collectionName) = false := by
    simp [hne]
  constructor
  · intro hf
    exact logEvent_skip _ _ _ _ _ _ _ _ (by simp [shouldLogEvent, hbeq, hopts, hf])
  · intro hf hfind
    exact logEvent_appends _ _ _ _ _ _ _ _
      (by simp [shouldLogEvent, hbeq, hopts, hf]) hfind

/-- C4 witness: the no-op under an always-false filter and the single
append under an always-true filter, on a provisioned state. -/
theorem c4_filter_authority_witness :
    (logEvent wFilterFalse sampleState (some sampleRecord) none "widgets"
      "create" none 0 = (sampleState, .ok ())) ∧
    (∃ entry,
      logEvent wFilterTrue sampleState (some sampleRecord) none "widgets"
        "create" none 0 = (saveAuditRecord sampleState entry, .ok ())) :=
  ⟨(c4_filter_authority wFilterFalse (fun _ _ => false) sampleState
      (some sampleRecord) none "widgets" "create" none 0 rfl (by decide)).1 rfl,
   (c4_filter_authority wFilterTrue (fun _ _ => true) sampleState
      (some sampleRecord) none "widgets" "create" none 0 rfl (by decide)).2 rfl rfl⟩

/-- C5 counterexample: the after-record is present but carries neither
a user nor a created_by field, while the before-record carries
user=alice and no request-context user id is supplied; the claim's
flat precedence chain would store alice, but the persisted entry has
no user_id at all. -/
theorem c5_counterexample :
    getField cexBeforeRecord.fields "user" = some (.vStr "alice") ∧
    getField cexAfterRecord.fields "user" = none ∧
    getField cexAfterRecord.fields "created_by" = none ∧
    (logEvent DefaultOptions sampleState (some cexAfterRecord)
      (some cexBeforeRecord) "widgets" "update_request" none 0).1.auditEntries.map
        (fun entry => getField entry AuditLogFields.userID) = [none] :=
  ⟨rfl, rfl, rfl, rfl⟩

/-- C5 amended: the request-context user id wins when present;
otherwise, when the after-record is present only its user field and
then its created_by field are consulted; the before-record's user and
created_by fields are consulted only when the after-record is null;
otherwise user_id is absent. -/
theorem c5_user_resolution (opts : Options) (s : AppState)
    (afterRecord beforeRecord : Option Record) (coll eventType : String)
    (requestInfo : Option Fields) (now : Nat)
    (hgate : shouldLogEvent opts coll eventType = true)
    (hfind : (findCollectionByNameOrId s opts.collectionName).isSome = true)
    (hkeys : ∀ p ∈ requestInfo.getD [], ¬ p.1 ∈ reservedEntryKeys) :
    ∃ entry,
      logEvent opts s afterRecord beforeRecord coll eventType requestInfo now =
        (saveAuditRecord s entry, .ok ()) ∧
      getField entry AuditLogFields.userID =
        resolveUserId (suppliedUserId requestInfo) afterRecord beforeRecord := by
  obtain ⟨entry, hrun, _, _, _, huid, _, _⟩ :=
    logEvent_saves opts s afterRecord beforeRecord coll eventType requestInfo now
      hgate hfind hkeys
  exact ⟨entry, hrun, huid⟩

/-- C5 witness: a delete call whose entry draws user_id from the
before-record (the after-record being null). -/
theorem c5_user_resolution_witness :
    ∃ entry,
      logEvent DefaultOptions sampleState none (some cexBeforeRecord) "widgets"
        "delete" none 0 = (saveAuditRecord sampleState entry, .ok ()) ∧
      getField entry AuditLogFields.userID =
        resolveUserId (suppliedUserId none) none (some cexBeforeRecord) :=
  c5_user_resolution DefaultOptions sampleState none (some cexBeforeRecord)
    "widgets" "delete" none 0 rfl rfl (by simp)

/-- C2 counterexample: with the audit collection missing, the lifecycle
create hook returns logEvent's error as its own hook result instead of
catching and discarding it. -/
theorem c2_counterexample :
    (onRecordAfterCreateSuccess DefaultOptions emptyState wRecEvent 0 (.ok ())).2 =
      .error ("Failed to find audit_logs collection " ++ "audit_logs") :=
  rfl

/-- C2 amended: the four request/auth hooks catch, log and discard any
logEvent failure and return e.Next(), so the triggering request
proceeds; the three lifecycle after-success hooks instead return
logEvent's result directly (the observed operation has already
committed by then, but the error is not discarded at that call site). -/
theorem c2_hook_error_policy (opts : Options) (s : AppState) (now : Nat)
    (next : Except String Unit) :
    (∀ e : RecordRequestEvent, (onRecordCreateRequest opts s e now next).2 = next) ∧
    (∀ e : RecordRequestEvent, (onRecordUpdateRequest opts s e now next).2 = next) ∧
    (∀ e : RecordRequestEvent, (onRecordDeleteRequest opts s e now next).2 = next) ∧
    (∀ e : RecordAuthRequestEvent, (onRecordAuthRequest opts s e now next).2 = next) ∧
    (∀ e : RecordEvent, e.collName ≠ opts.collectionName →
      onRecordAfterCreateSuccess opts s e now next =
        logEvent opts s (some e.record) none e.collName EventTypeCreate none now) ∧
    (∀ e : RecordEvent, e.collName ≠ opts.collectionName →
      onRecordAfterUpdateSuccess opts s e now next =
        logEvent opts s (some e.record) none e.collName EventTypeUpdate none now) ∧
    (∀ e : RecordEvent, e.collName ≠ opts.collectionName →
      onRecordAfterDeleteSuccess opts s e now next =
        logEvent opts s none (some e.record) e.collName EventTypeDelete none now) := by
  refine ⟨?_, ?_, ?_, ?_, ?_, ?_, ?_⟩
  · intro e
    unfold onRecordCreateRequest
    split <;> rfl
  · intro e
    unfold onRecordUpdateRequest
    split <;> rfl
  · intro e
    unfold onRecordDeleteRequest
    split <;> rfl
  · intro e
    unfold onRecordAuthRequest
    rfl
  · intro e hne
    unfold onRecordAfterCreateSuccess
    rw [if_neg (by simp [hne])]
  · intro e hne
    unfold onRecordAfterUpdateSuccess
    rw [if_neg (by simp [hne])]
  · intro e hne
    unfold onRecordAfterDeleteSuccess
    rw [if_neg (by simp [hne])]

/-- C2 witness: a request hook discarding the logging failure (the
audit collection is missing) and a lifecycle hook forwarding logEvent's
result. -/
theorem c2_hook_error_policy_witness :
    (onRecordCreateRequest DefaultOptions emptyState wReqEvent 0 (.ok ())).2 = .ok () ∧
    onRecordAfterCreateSuccess DefaultOptions emptyState wRecEvent 0 (.ok ()) =
      logEvent DefaultOptions emptyState (some wRecEvent.record) none "widgets"
        EventTypeCreate none 0 := by
  have h := c2_hook_error_policy DefaultOptions emptyState 0 (.ok ())
  exact ⟨h.1 wReqEvent, h.2.2.2.2.1 wRecEvent (by decide)⟩

/-- C3: change-tracking completeness — for every entry persisted by a
hook, the populated snapshot fields follow the event type: create,
update, create_request and auth entries have after_changes present and
before_changes absent; delete and delete_request entries have
before_changes present and after_changes absent; update_request
entries have after_changes present and before_changes present exactly
when the prior-state lookup succeeds; never are both absent. -/
theorem c3_change_tracking (opts : Options) (s : AppState) (now : Nat)
    (next : Except String Unit) :
    (∀ e : RecordEvent, ∃ l,
      (onRecordAfterCreateSuccess opts s e now next).1.auditEntries =
        s.auditEntries ++ l ∧
      ∀ entry ∈ l,
        getField entry AuditLogFields.beforeChanges = none ∧
        (getField entry AuditLogFields.afterChanges).isSome = true) ∧
    (∀ e : RecordEvent, ∃ l,
      (onRecordAfterUpdateSuccess opts s e now next).1.auditEntries =
        s.auditEntries ++ l ∧
      ∀ entry ∈ l,
        getField entry AuditLogFields.beforeChanges = none ∧
        (getField entry AuditLogFields.afterChanges).isSome = true) ∧
    (∀ e : RecordEvent, ∃ l,
      (onRecordAfterDeleteSuccess opts s e now next).1.auditEntries =
        s.auditEntries ++ l ∧
      ∀ entry ∈ l,
        (getField entry AuditLogFields.beforeChanges).isSome = true ∧
        getField entry AuditLogFields.afterChanges = none) ∧
    (∀ e : RecordRequestEvent, ∃ l,
      (onRecordCreateRequest opts s e now next).1.auditEntries =
        s.auditEntries ++ l ∧
      ∀ entry ∈ l,
        getField entry AuditLogFields.beforeChanges = none ∧
        (getField entry AuditLogFields.afterChanges).isSome = true) ∧
    (∀ e : RecordRequestEvent, ∃ l,
      (onRecordUpdateRequest opts s e now next).1.auditEntries =
        s.auditEntries ++ l ∧
      ∀ entry ∈ l,
        (getField entry AuditLogFields.afterChanges).isSome = true ∧
        getField entry AuditLogFields.beforeChanges =
          (findRecordById s e.collectionName e.record.id).map
            (fun x => .vStr (serializeRecord x))) ∧
    (∀ e : RecordRequestEvent, ∃ l,
      (onRecordDeleteRequest opts s e now next).1.auditEntries =
        s.auditEntries ++ l ∧
      ∀ entry ∈ l,
        (getField entry AuditLogFields.beforeChanges).isSome = true ∧
        getField entry AuditLogFields.afterChanges = none) ∧
    (∀ e : RecordAuthRequestEvent, ∃ l,
      (onRecordAuthRequest opts s e now next).1.auditEntries =
        s.auditEntries ++ l ∧
      ∀ entry ∈ l,
        getField entry AuditLogFields.beforeChanges = none ∧
        (getField entry AuditLogFields.afterChanges).isSome = true) := by
  refine ⟨?_, ?_, ?_, ?_, ?_, ?_, ?_⟩
  · intro e
    unfold onRecordAfterCreateSuccess
    split
    · exact ⟨[], by simp, by simp⟩
    · obtain ⟨l, hl, hpat⟩ := logEvent_entries opts s (some e.record) none
        e.collName EventTypeCreate none now (by simp)
      refine ⟨l, hl, fun entry he => ?_⟩
      obtain ⟨hb, ha, _, _, _, _⟩ := hpat entry he
      exact ⟨by simpa using hb, by simp [ha]⟩
  · intro e
    unfold onRecordAfterUpdateSuccess
    split
    · exact ⟨[], by simp, by simp⟩
    · obtain ⟨l, hl, hpat⟩ := logEvent_entries opts s (some e.record) none
        e.collName EventTypeUpdate none now (by simp)
      refine ⟨l, hl, fun entry he => ?_⟩
      obtain ⟨hb, ha, _, _, _, _⟩ := hpat entry he
      exact ⟨by simpa using hb, by simp [ha]⟩
  · intro e
    unfold onRecordAfterDeleteSuccess
    split
    · exact ⟨[], by simp, by simp⟩
    · obtain ⟨l, hl, hpat⟩ := logEvent_entries opts s none (some e.record)
        e.collName EventTypeDelete none now (by simp)
      refine ⟨l, hl, fun entry he => ?_⟩
      obtain ⟨hb, ha, _, _, _, _⟩ := hpat entry he
      exact ⟨by simp [hb], by simpa using ha⟩
  · intro e
    unfold onRecordCreateRequest
    split
    · exact ⟨[], by simp, by simp⟩
    · obtain ⟨l, hl, hpat⟩ := logEvent_entries opts s (some e.record) none
        e.collectionName EventTypeCreateReq (some (buildRequestInfo e)) now
        (buildRequestInfo_keys e)
      refine ⟨l, hl, fun entry he => ?_⟩
      obtain ⟨hb, ha, _, _, _, _⟩ := hpat entry he
      exact ⟨by simpa using hb, by simp [ha]⟩
  · intro e
    unfold onRecordUpdateRequest
    split
    · exact ⟨[], by simp, by simp⟩
    · obtain ⟨l, hl, hpat⟩ := logEvent_entries opts s (some e.record)
        (findRecordById s e.collectionName e.record.id) e.collectionName
        EventTypeUpdateReq (some (buildRequestInfo e)) now (buildRequestInfo_keys e)
      refine ⟨l, hl, fun entry he => ?_⟩
      obtain ⟨hb, ha, _, _, _, _⟩ := hpat entry he
      exact ⟨by simp [ha], hb⟩
  · intro e
    unfold onRecordDeleteRequest
    split
    · exact ⟨[], by simp, by simp⟩
    · obtain ⟨l, hl, hpat⟩ := logEvent_entries opts s none (some e.record)
        e.collectionName EventTypeDeleteReq (some (buildRequestInfo e)) now
        (buildRequestInfo_keys e)
      refine ⟨l, hl, fun entry he => ?_⟩
      obtain ⟨hb, ha, _, _, _, _⟩ := hpat entry he
      exact ⟨by simp [hb], by simpa using ha⟩
  · intro e
    unfold onRecordAuthRequest
    obtain ⟨l, hl, hpat⟩ := logEvent_entries opts s (some e.record) none
      e.collName EventTypeAuth (some (buildAuthRequestInfo e)) now
      (buildAuthRequestInfo_keys e)
    refine ⟨l, hl, fun entry he => ?_⟩
    obtain ⟨hb, ha, _, _, _, _⟩ := hpat entry he
    exact ⟨by simpa using hb, by simp [ha]⟩

/-- C3 witness: the create hook on a provisioned state. -/
theorem c3_change_tracking_witness :
    ∃ l,
      (onRecordAfterCreateSuccess DefaultOptions sampleState wRecEvent 0
        (.ok ())).1.auditEntries = sampleState.auditEntries ++ l ∧
      ∀ entry ∈ l,
        getField entry AuditLogFields.beforeChanges = none ∧
        (getField entry AuditLogFields.afterChanges).isSome = true :=
  (c3_change_tracking DefaultOptions sampleState 0 (.ok ())).1 wRecEvent

/-- C6: IP extraction precedence — RealIP() if exposed, else (when
RequestInfo() is unavailable or fails) "unknown", else the
case-insensitively lowercased headers are probed in order
cf-connecting-ip, first trimmed entry of x-forwarded-for, x-real-ip,
fly-client-ip, else "unknown"; in particular cf-connecting-ip beats
x-forwarded-for, and alone x-forwarded-for yields its first entry. -/
theorem c6_ip_precedence :
    (∀ (e : ProbeEvent) (ip : String), e.realIP = some ip → extractIP e = ip) ∧
    (∀ e : ProbeEvent, e.realIP = none → e.requestInfo = none →
      extractIP e = "unknown") ∧
    (∀ (e : ProbeEvent) (msg : String), e.realIP = none →
      e.requestInfo = some (.error msg) → extractIP e = "unknown") ∧
    (∀ (e : ProbeEvent) (ri : ReqInfo), e.realIP = none →
      e.requestInfo = some (.ok ri) →
      (headerOrEmpty (lowerHeaderMap ri) "cf-connecting-ip" ≠ "" →
        extractIP e = headerOrEmpty (lowerHeaderMap ri) "cf-connecting-ip") ∧
      (headerOrEmpty (lowerHeaderMap ri) "cf-connecting-ip" = "" →
        headerOrEmpty (lowerHeaderMap ri) "x-forwarded-for" ≠ "" →
        extractIP e =
          trimString ((splitComma (headerOrEmpty (lowerHeaderMap ri)
            "x-forwarded-for")).headD "")) ∧
      (headerOrEmpty (lowerHeaderMap ri) "cf-connecting-ip" = "" →
        headerOrEmpty (lowerHeaderMap ri) "x-forwarded-for" = "" →
        headerOrEmpty (lowerHeaderMap ri) "x-real-ip" ≠ "" →
        extractIP e = headerOrEmpty (lowerHeaderMap ri) "x-real-ip") ∧
      (headerOrEmpty (lowerHeaderMap ri) "cf-connecting-ip" = "" →
        headerOrEmpty (lowerHeaderMap ri) "x-forwarded-for" = "" →
        headerOrEmpty (lowerHeaderMap ri) "x-real-ip" = "" →
        headerOrEmpty (lowerHeaderMap ri) "fly-client-ip" ≠ "" →
        extractIP e = headerOrEmpty (lowerHeaderMap ri) "fly-client-ip") ∧
      (headerOrEmpty (lowerHeaderMap ri) "cf-connecting-ip" = "" →
        headerOrEmpty (lowerHeaderMap ri) "x-forwarded-for" = "" →
        headerOrEmpty (lowerHeaderMap ri) "x-real-ip" = "" →
        headerOrEmpty (lowerHeaderMap ri) "fly-client-ip" = "" →
        extractIP e = "unknown")) ∧
    extractIP
      { realIP := none,
        requestInfo := some (.ok
          { method := "POST", context := "/",
            headers := [("cf-connecting-ip", "1.1.1.1"),
                        ("x-forwarded-for", "2.2.2.2, 3.3.3.3")],
            auth := none }) } = "1.1.1.1" ∧
    extractIP
      { realIP := none,
        requestInfo := some (.ok
          { method := "POST", context := "/",
            headers := [("x-forwarded-for", "2.2.2.2, 3.3.3.3")],
            auth := none }) } = "2.2.2.2" ∧
    extractIP
      { realIP := none,
        requestInfo := some (.ok
          { method := "GET", context := "/",
            headers := [("CF-Connecting-IP", "9.9.9.9")],
            auth := none }) } = "9.9.9.9" := by
  refine ⟨?_, ?_, ?_, ?_, by decide, by decide, by decide⟩
  · intro e ip h
    unfold extractIP
    rw [h]
  · intro e h1 h2
    unfold extractIP
    rw [h1, h2]
  · intro e msg h1 h2
    unfold extractIP
    rw [h1, h2]
  · intro e ri h1 h2
    refine ⟨?_, ?_, ?_, ?_, ?_⟩
    · intro hcf
      unfold extractIP
      rw [h1, h2]
      simp [hcf]
    · intro hcf hxf
      unfold extractIP
      rw [h1, h2]
      simp [hcf, hxf]
    · intro hcf hxf hxr
      unfold extractIP
      rw [h1, h2]
      simp [hcf, hxf, hxr]
    · intro hcf hxf hxr hfly
      unfold extractIP
      rw [h1, h2]
      simp [hcf, hxf, hxr, hfly]
    · intro hcf hxf hxr hfly
      unfold extractIP
      rw [h1, h2]
      simp [hcf, hxf, hxr, hfly]

/-- C6 witness: a platform-native RealIP() accessor wins outright. -/
theorem c6_ip_precedence_witness :
    extractIP { realIP := some "7.7.7.7", requestInfo := none } = "7.7.7.7" :=
  c6_ip_precedence.1 { realIP := some "7.7.7.7", requestInfo := none }
    "7.7.7.7" rfl

/-- C7: idempotent schema provisioning — an existing collection means
success without modification, and provisioning twice from a state
without the collection yields exactly one collection of that name with
no error on the second (no-op) call. -/
theorem c7_idempotent_provisioning (s : AppState) (name : String) :
    ((findCollectionByNameOrId s name).isSome = true →
      ensureAuditCollection s name = (s, .ok ())) ∧
    (findCollectionByNameOrId s name = none →
      (ensureAuditCollection s name).2 = .ok () ∧
      ((ensureAuditCollection s name).1.collections.filter
        (fun c => c.name == name)).length = 1 ∧
      ensureAuditCollection (ensureAuditCollection s name).1 name =
        ((ensureAuditCollection s name).1, .ok ())) := by
  constructor
  · intro h
    obtain ⟨c, hc⟩ := Option.isSome_iff_exists.mp h
    unfold ensureAuditCollection
    rw [hc]
  · intro h
    have hstep : ensureAuditCollection s name =
        (saveCollection s (auditCollectionSchema name), .ok ()) := by
      unfold ensureAuditCollection
      rw [h]
    have hnone : ∀ c ∈ s.collections, ¬ (c.name == name) = true := by
      intro c hcmem
      unfold findCollectionByNameOrId at h
      exact List.find?_eq_none.mp h c hcmem
    have hfound : findCollectionByNameOrId
        (saveCollection s (auditCollectionSchema name)) name =
        some (auditCollectionSchema name) := by
      unfold findCollectionByNameOrId at h ⊢
      unfold saveCollection
      simp only [List.find?_append, h, Option.none_or]
      simp [auditCollectionSchema]
    refine ⟨by rw [hstep], ?_, ?_⟩
    · rw [hstep]
      unfold saveCollection
      simp only [List.filter_append]
      rw [List.filter_eq_nil_iff.mpr hnone]
      simp [auditCollectionSchema]
    · rw [hstep]
      unfold ensureAuditCollection
      rw [hfound]

/-- C7 witness: no-op on a provisioned state, and a single audit
collection after provisioning an empty state. -/
theorem c7_idempotent_provisioning_witness :
    (ensureAuditCollection sampleState "audit_logs" = (sampleState, .ok ())) ∧
    ((ensureAuditCollection emptyState "audit_logs").1.collections.filter
      (fun c => c.name == "audit_logs")).length = 1 :=
  ⟨(c7_idempotent_provisioning sampleState "audit_logs").1 rfl,
   ((c7_idempotent_provisioning emptyState "audit_logs").2 rfl).2.1⟩

end PbAudit
